import Mathlib

set_option autoImplicit false

/-!
Shallow embedding of the query-routing pipeline of the chatbot backend
(repository `teston250827`), covering:

* `modules/services/sensitive_query_detector.py` (query classifier),
* `modules/routers/api.py` (`generate_content` request handler),
* `modules/cache.py` (`MemoryCache`),
* `main.py` (`retry_async`, `CircuitBreaker`, `query_spanner_triples`),
* `src/database.py` (`query_spanner_triples`),
* `modules/services/discovery_engine_api.py` (`search_documents`,
  `generate_answer`).

External effects (HTTP calls, the Spanner store, JSON parsing of the posted
history) are modelled as explicit oracle arguments; everything else is
translated statement by statement from the Python source.
-/

namespace Teston

/-! ### Python string primitives

Helpers mirroring the Python string operations the sources use:
`needle in hay`, `str.lower()`, `str.strip()`, `str.split()` and
`re.search` restricted to the patterns appearing in the source (which are
all of the form `lit₁.*lit₂` or `lit₁.*lit₂.*lit₃`). -/

/-- `leadsWith n h` is true when the char list `n` is an initial segment of `h`. -/
def leadsWith : List Char → List Char → Bool
  | [], _ => true
  | _ :: _, [] => false
  | a :: as, b :: bs => a == b && leadsWith as bs

/-- Python `needle in hay` (substring test) on char lists. -/
def hasSub (needle : List Char) : List Char → Bool
  | [] => needle.isEmpty
  | c :: t => leadsWith needle (c :: t) || hasSub needle t

/-- Python `needle in hay` on strings. -/
def strContains (needle hay : String) : Bool :=
  hasSub needle.data hay.data

/-- Python `str.lower()`.  Korean text is unaffected; ASCII letters are
lowercased, which is all the sources rely on. -/
def pyLower (s : String) : String :=
  ⟨s.data.map Char.toLower⟩

/-- The whitespace class used by Python `str.strip()` / `str.split()`. -/
def pyIsSpace (c : Char) : Bool :=
  c == ' ' || c == '\t' || c == '\n' || c == '\r' || c == '\x0b' || c == '\x0c'

/-- Python `str.strip()`. -/
def pyStrip (s : String) : String :=
  ⟨((s.data.dropWhile pyIsSpace).reverse.dropWhile pyIsSpace).reverse⟩

/-- Helper for `pySplitWs`: accumulate the current word (reversed) while
scanning, emitting maximal runs of non-whitespace characters. -/
def wordsAux : List Char → List Char → List (List Char)
  | cur, [] => if cur.isEmpty then [] else [cur.reverse]
  | cur, c :: t =>
    if pyIsSpace c then
      if cur.isEmpty then wordsAux [] t else cur.reverse :: wordsAux [] t
    else wordsAux (c :: cur) t

/-- Python `str.split()` (split on whitespace runs, dropping empty pieces). -/
def pySplitWs (s : String) : List String :=
  (wordsAux [] s.data).map (fun l => ⟨l⟩)

/-- Split a char list at newline characters (keeping empty lines). -/
def splitLines : List Char → List (List Char)
  | [] => [[]]
  | c :: t =>
    if c == '\n' then [] :: splitLines t
    else
      match splitLines t with
      | [] => [[c]]
      | l :: ls => (c :: l) :: ls

/-- Drop everything up to and including the first occurrence of `needle`;
`none` when `needle` does not occur. -/
def dropPast (needle : List Char) : List Char → Option (List Char)
  | [] => if needle.isEmpty then some [] else none
  | c :: t =>
    if leadsWith needle (c :: t) then some (List.drop needle.length (c :: t))
    else dropPast needle t

/-- Ordered-occurrence test: all the literals occur in this order, with
arbitrary gaps, inside one char list. -/
def seqFind : List (List Char) → List Char → Bool
  | [], _ => true
  | n :: rest, s =>
    match dropPast n s with
    | none => false
    | some s2 => seqFind rest s2

/-- `re.search` for the source's patterns, which are all a sequence of
literals separated by `.*`.  Without `re.DOTALL`, `.*` cannot cross a
newline, so the ordered occurrence must lie inside a single line. -/
def reSearch (lits : List String) (s : String) : Bool :=
  (splitLines s.data).any (fun line => seqFind (lits.map String.data) line)

/-! ### Query classifier — `modules/services/sensitive_query_detector.py` -/

def specific_price_keywords : List String :=
  ["얼마", "정확히", "exactly", "구체적으로", "specifically",
   "돈", "금액", "원", "달러", "만원", "천원", "가격이",
   "비용이", "요금이", "결제", "payment", "pay", "billing"]

def general_plan_keywords : List String :=
  ["요금제", "플랜", "plan", "종류", "타입", "type", "옵션", "option",
   "서비스", "service", "기능", "feature", "제공", "포함",
   "차이", "difference", "비교", "compare", "추천", "recommend"]

def discount_keywords : List String :=
  ["할인", "discount", "sale", "세일", "특가", "프로모션",
   "promotion", "coupon", "쿠폰", "이벤트", "event",
   "혜택", "benefit", "offer", "deal", "딜",
   "캠페인", "campaign", "기간한정", "limited"]

def consultant_keywords : List String :=
  ["상담원", "상담사", "직접", "통화", "전화", "연결",
   "consultant", "agent", "support", "help", "서포트",
   "문의", "inquiry", "contact", "담당자", "직원",
   "사람", "person", "human", "실제", "real"]

def contract_keywords : List String :=
  ["계약", "contract", "agreement", "계약서", "약관",
   "terms", "조건", "condition", "정책", "policy",
   "법적", "legal", "소송", "lawsuit", "분쟁", "dispute"]

def privacy_keywords : List String :=
  ["개인정보", "privacy", "보안", "security", "비밀번호", "password",
   "아이디", "id", "계정", "account", "로그인", "login",
   "데이터", "data", "정보보호", "GDPR", "개인정보보호법"]

/-- `SensitiveQueryDetector._check_keywords`. -/
def checkKeywords (query : String) (keywords : List String) : Bool :=
  keywords.any (fun k => strContains k query)

/-- `SensitiveQueryDetector._get_matched_keywords`. -/
def getMatchedKeywords (query : String) (keywords : List String) : List String :=
  keywords.filter (fun k => strContains k query)

/-- `specific_price_patterns`, each regex `a.*b(.*c)` as its literal pieces
(the leading `.*` of the last pattern is redundant under search semantics). -/
def specific_price_patterns : List (List String) :=
  [["얼마", "받", "나"], ["가격", "어떻", "되"], ["비용", "얼마"],
   ["정확", "가격"], ["구체적", "비용"], ["원", "정도"]]

/-- `general_info_patterns`. -/
def general_info_patterns : List (List String) :=
  [["요금제", "종류"], ["플랜", "있", "나"], ["서비스", "차이"],
   ["기능", "비교"], ["추천", "플랜"]]

/-- `consultant_patterns`. -/
def consultant_patterns : List (List String) :=
  [["상담원", "연결"], ["직접", "통화"], ["사람", "대화"]]

/-- `ClassificationResult`: the dict returned by `is_sensitive_query`.
`confidence100` is the confidence in hundredths: the source computes
`min(0.4*len(categories) + 0.15*len(matched_keywords), 1.0)`, possibly
raised to `0.9` / `0.7`, so every ideal value is a whole number of
hundredths; we model the ideal real value scaled by 100 (Python's binary
floats carry rounding error of order 1e-16, far below the 5/100 grid on
which these values live and the 0.9 / 0.7 thresholds compared against). -/
structure ClassificationResult where
  is_sensitive : Bool
  should_try_rag_first : Bool
  categories : List String
  confidence100 : Nat
  matched_keywords : List String
  pattern_matched : Bool
  query_type : String
  deriving DecidableEq, Repr

/-- The confidence as the rational it denotes (`confidence100 / 100`). -/
def ClassificationResult.confidence (r : ClassificationResult) : ℚ :=
  (r.confidence100 : ℚ) / 100

/-- `SensitiveQueryDetector.is_sensitive_query`, translated statement by
statement.  `list(set(...))` is modelled by `List.dedup` (the claims never
depend on the set's iteration order); the confidence formula uses the
keyword list before deduplication, as the source does. -/
def is_sensitive_query (query : String) : ClassificationResult :=
  let query_lower := pyLower query
  let has_general_plan := checkKeywords query_lower general_plan_keywords
  let has_specific_price := checkKeywords query_lower specific_price_keywords
  -- step 1: plan/price keyword analysis
  let st1 : List String × List String × String × Bool :=
    if has_general_plan && !has_specific_price then
      ([], [], "general_plan_info", true)
    else if has_specific_price then
      (["specific_price"], getMatchedKeywords query_lower specific_price_keywords,
       "specific_price", false)
    else ([], [], "general", false)
  let categories := st1.1
  let matched_keywords := st1.2.1
  let query_type := st1.2.2.1
  let should_try_rag_first := st1.2.2.2
  -- step 2: the other sensitive-category keyword sets
  let st2 : List String × List String × String :=
    if checkKeywords query_lower discount_keywords then
      (categories ++ ["discount"],
       matched_keywords ++ getMatchedKeywords query_lower discount_keywords, "discount")
    else (categories, matched_keywords, query_type)
  let categories := st2.1
  let matched_keywords := st2.2.1
  let query_type := st2.2.2
  let st3 : List String × List String × String :=
    if checkKeywords query_lower consultant_keywords then
      (categories ++ ["consultant"],
       matched_keywords ++ getMatchedKeywords query_lower consultant_keywords,
       "consultant_request")
    else (categories, matched_keywords, query_type)
  let categories := st3.1
  let matched_keywords := st3.2.1
  let query_type := st3.2.2
  let st4 : List String × List String × String :=
    if checkKeywords query_lower contract_keywords then
      (categories ++ ["contract"],
       matched_keywords ++ getMatchedKeywords query_lower contract_keywords, "contract")
    else (categories, matched_keywords, query_type)
  let categories := st4.1
  let matched_keywords := st4.2.1
  let query_type := st4.2.2
  let st5 : List String × List String × String :=
    if checkKeywords query_lower privacy_keywords then
      (categories ++ ["privacy"],
       matched_keywords ++ getMatchedKeywords query_lower privacy_keywords, "privacy")
    else (categories, matched_keywords, query_type)
  let categories := st5.1
  let matched_keywords := st5.2.1
  let query_type := st5.2.2
  -- step 3: regex pattern layers (each `for … break` appends at most once)
  let pattern_matched_specific := specific_price_patterns.any (fun p => reSearch p query_lower)
  let st6 : List String × String :=
    if pattern_matched_specific then (categories ++ ["specific_price"], "specific_price")
    else (categories, query_type)
  let categories := st6.1
  let query_type := st6.2
  let pattern_matched_general := general_info_patterns.any (fun p => reSearch p query_lower)
  let st7 : Bool × String :=
    if pattern_matched_general then (true, "general_plan_info")
    else (should_try_rag_first, query_type)
  let should_try_rag_first := st7.1
  let query_type := st7.2
  let st8 : List String × String :=
    if consultant_patterns.any (fun p => reSearch p query_lower) then
      (categories ++ ["consultant"], "consultant_request")
    else (categories, query_type)
  let categories := st8.1
  let query_type := st8.2
  -- step 4: confidence, in hundredths (0.4 -> 40, 0.15 -> 15, 1.0 -> 100)
  let confidence : Nat :=
    if !(categories == []) then
      min (40 * categories.length + 15 * matched_keywords.length) 100
    else 0
  let confidence :=
    if pattern_matched_specific then max confidence 90
    else if pattern_matched_general then max confidence 70
    else confidence
  -- step 5: final decision
  let is_sensitive := decide (0 < categories.length) || pattern_matched_specific
  let is_sensitive :=
    if should_try_rag_first && !pattern_matched_specific then false else is_sensitive
  { is_sensitive := is_sensitive
    should_try_rag_first := should_try_rag_first
    categories := categories
    confidence100 := confidence
    matched_keywords := matched_keywords.dedup
    pattern_matched := pattern_matched_specific || pattern_matched_general
    query_type := query_type }

/-- `SensitiveQueryDetector.get_sensitive_response`: the fixed escalation
templates, selected by membership tests on the category list. -/
def get_sensitive_response (categories : List String) : String :=
  if categories.contains "consultant" || categories.contains "consultant_request" then
    "해당 질문은 제가 처리할 수 없습니다. 상담사와 연결을 도와드릴까요?"
  else if categories.contains "specific_price" then
    "구체적인 가격 정보는 제가 정확하게 안내드리기 어렵습니다. 정확한 요금 안내를 위해 상담사와 연결을 도와드릴까요?"
  else if categories.contains "discount" then
    "할인이나 프로모션에 관한 문의는 제가 정확한 정보를 제공하기 어렵습니다. 상담사와 연결을 도와드릴까요?"
  else if categories.contains "contract" then
    "계약이나 법적 사항에 대한 문의는 제가 처리할 수 없습니다. 상담사와 연결을 도와드릴까요?"
  else if categories.contains "privacy" then
    "개인정보나 보안 관련 문의는 제가 처리할 수 없습니다. 상담사와 연결을 도와드릴까요?"
  else if categories.contains "general_plan_info" || categories.contains "rag_insufficient" then
    "요금제 관련 정보를 찾지 못했습니다. 더 정확한 안내를 위해 상담사와 연결을 도와드릴까요?"
  else if categories.contains "rag_error" then
    "일시적인 시스템 오류가 발생했습니다. 정확한 안내를 위해 상담사와 연결을 도와드릴까요?"
  else
    "해당 질문은 제가 처리할 수 없습니다. 상담사와 연결을 도와드릴까요?"

/-! ### Request handler — `modules/routers/api.py`, `generate_content`

The handler is a function of its HTTP form inputs plus two oracles for the
external world: the outcome of `json.loads(conversationHistory)` (an
`Except`, since the same string always parses the same way, including on
the re-parse inside the error handler) and the outcome of each successive
`await get_complete_discovery_answer(userPrompt)` call (indexed by call
number).  The fire-and-forget logging calls (`conversation_logger`,
`firestore_conversation`) are wrapped in their own `try/except` in the
source and cannot affect the response, so they are not modelled.  The
unused `sessionId` form field only feeds those logging calls. -/

/-- The dict returned by `get_complete_discovery_answer`
(`modules/services/discovery_engine_api.py`); citation / search-result /
related-question payloads are opaque to the handler and modelled as opaque
strings. -/
structure DiscoveryResult where
  answer_text : String
  citations : List String
  search_results : List String
  related_questions : List String
  query_id : String
  session_id : String
  deriving DecidableEq, Repr

/-- The JSON body of a handled `/api/generate` response (the fields the
claims are about; `quality_check` and `metadata` subfields other than
`engine_type` are omitted).  `consultant_needed := none` models a response
whose JSON has no `consultant_needed` key. -/
structure ApiResponse where
  answer : String
  summary_answer : String
  citations : List String
  search_results : List String
  related_questions : List String
  updatedHistory : List (String × String)
  engine_type : String
  consultant_needed : Option Bool
  deriving DecidableEq, Repr

/-- What the handler does at the transport boundary. -/
inductive HandlerOutcome where
  /-- `raise HTTPException(status, detail)` (framework turns it into that status). -/
  | httpError (status : Nat) (detail : String)
  /-- `return JSONResponse(resp, status_code)`. -/
  | json (resp : ApiResponse) (status : Nat)
  /-- an exception escapes the handler uncaught. -/
  | unhandled (msg : String)
  deriving DecidableEq, Repr

/-- api.py:255 — the default answer when the engine returns nothing. -/
def no_info_answer : String :=
  "죄송하지만 관련 정보를 찾을 수 없습니다. 처음서비스와 관련된 구체적인 질문을 해주시면 더 정확한 답변을 제공할 수 있습니다."

/-- api.py:340 — the fixed generic-error answer of the outer `except`. -/
def generic_error_answer : String :=
  "죄송합니다. 일시적인 오류가 발생했습니다. 잠시 후 다시 시도해주세요."

/-- Append the user turn and the model turn to the parsed history. -/
def appendTurns (hist : List (String × String)) (userPrompt answer : String) :
    List (String × String) :=
  hist ++ [("user", userPrompt), ("model", answer)]

/-- api.py:128-162 — RAG answer too short: consultant fallback built from the
first engine result's citations / search results. -/
def rag_insufficient_response (hist : List (String × String)) (userPrompt : String)
    (r0 : DiscoveryResult) : ApiResponse :=
  let fallback := get_sensitive_response ["general_plan_info"]
  { answer := fallback
    summary_answer := fallback
    citations := r0.citations
    search_results := r0.search_results
    related_questions := r0.related_questions
    updatedHistory := appendTurns hist userPrompt fallback
    engine_type := "rag_fallback_to_consultant"
    consultant_needed := some true }

/-- api.py:164-198 — the engine call of the RAG-first attempt raised. -/
def rag_error_response (hist : List (String × String)) (userPrompt : String) : ApiResponse :=
  let fallback := get_sensitive_response ["general_plan_info"]
  { answer := fallback
    summary_answer := fallback
    citations := []
    search_results := []
    related_questions := []
    updatedHistory := appendTurns hist userPrompt fallback
    engine_type := "rag_error_to_consultant"
    consultant_needed := some true }

/-- api.py:200-236 — immediate consultant handoff for a sensitive query. -/
def sensitive_response_json (hist : List (String × String)) (userPrompt : String)
    (sc : ClassificationResult) : ApiResponse :=
  let s := get_sensitive_response sc.categories
  { answer := s
    summary_answer := s
    citations := []
    search_results := []
    related_questions := []
    updatedHistory := appendTurns hist userPrompt s
    engine_type := "sensitive_query_handler"
    consultant_needed := some true }

/-- api.py:238-334 — the main Discovery Engine response. -/
def main_response (hist : List (String × String)) (userPrompt : String)
    (r : DiscoveryResult) : ApiResponse :=
  let answer_text := r.answer_text
  let final_answer :=
    if !(answer_text == "") && !(pyStrip answer_text == "") then answer_text
    else no_info_answer
  { answer := final_answer
    summary_answer := final_answer
    citations := r.citations
    search_results := r.search_results
    related_questions := r.related_questions
    updatedHistory := appendTurns hist userPrompt final_answer
    engine_type := "discovery_engine_main"
    consultant_needed := none }

/-- api.py:336-355 — the fixed generic-error JSON of the outer `except`
(note: it carries no `consultant_needed` key at all, and its
`updatedHistory` is the bare re-parsed history with no turns appended). -/
def generic_error_response (hist : List (String × String)) : ApiResponse :=
  { answer := generic_error_answer
    summary_answer := generic_error_answer
    citations := []
    search_results := []
    related_questions := []
    updatedHistory := hist
    engine_type := "error_fallback"
    consultant_needed := none }

/-- The outer `except Exception` handler.  Its body evaluates
`json.loads(conversationHistory)` again (api.py:345): when the posted
history is not valid JSON that second parse raises inside the handler and
the new exception escapes uncaught. -/
def outer_error_handler (histParse : Except String (List (String × String))) :
    HandlerOutcome :=
  match histParse with
  | .error e2 => .unhandled e2
  | .ok hist => .json (generic_error_response hist) 200

/-- api.py:238-334 — consume one engine outcome on the main path; an engine
exception here is caught only by the outer handler (whose re-parse of the
already-parsed history succeeds and yields the same list). -/
def handle_main (hist : List (String × String)) (userPrompt : String) :
    Except String DiscoveryResult → HandlerOutcome
  | .error _ => .json (generic_error_response hist) 200
  | .ok r => .json (main_response hist userPrompt r) 200

/-- `generate_content` (api.py:98-355).  Returns the transport outcome and
the number of `get_complete_discovery_answer` invocations made. -/
def generate_content (authOk : Bool) (userPrompt : String)
    (histParse : Except String (List (String × String)))
    (engine : Nat → Except String DiscoveryResult) : HandlerOutcome × Nat :=
  if !authOk then
    (.httpError 503 "서버 인증 실패 - Google Cloud 인증을 확인하세요", 0)
  else
    match histParse with
    | .error _ =>
      -- json.loads raises at api.py:108; the outer handler re-parses and raises again
      (outer_error_handler histParse, 0)
    | .ok hist =>
      let sc := is_sensitive_query userPrompt
      if sc.should_try_rag_first then
        match engine 0 with
        | .error _ => (.json (rag_error_response hist userPrompt) 200, 1)
        | .ok r0 =>
          if !(r0.answer_text == "") && decide (50 < (pyStrip r0.answer_text).length) then
            -- RAG answer sufficient: fall through to the main block, which
            -- calls the engine again (api.py:239) and discards r0
            (handle_main hist userPrompt (engine 1), 2)
          else
            (.json (rag_insufficient_response hist userPrompt r0) 200, 1)
      else if sc.is_sensitive then
        (.json (sensitive_response_json hist userPrompt sc) 200, 0)
      else
        (handle_main hist userPrompt (engine 0), 1)

/-! ### Response cache — `modules/cache.py`, `MemoryCache`

The cache dict is modelled as an insertion-ordered association list with
unique keys (a Python dict); `time.time()` is an explicit `now : ℤ`
argument (whole seconds — the code only compares and adds timestamps, so an
integer-valued simulated clock decides the claims).  Python dict semantics
modelled: assigning to an existing key keeps its position, assigning a new
key appends, `next(iter(d))` is the first (oldest-inserted) key, and
`next(iter({}))` raises `StopIteration` — so `set` on a full, empty cache
(only possible when `max_size = 0`) is the `none` outcome. -/

structure CacheEntry (V : Type) where
  value : V
  expires : ℤ
  deriving DecidableEq, Repr

structure MemoryCache (V : Type) where
  cache : List (String × CacheEntry V)
  max_size : Nat
  deriving DecidableEq, Repr

/-- `self.cache.get(key)`: first entry with this key. -/
def cacheFind {V : Type} (c : List (String × CacheEntry V)) (k : String) :
    Option (CacheEntry V) :=
  match c with
  | [] => none
  | p :: t => if p.1 = k then some p.2 else cacheFind t k

/-- `d[key] = entry` on a Python dict: replace in place if present, else append. -/
def dictSet {V : Type} (c : List (String × CacheEntry V)) (k : String)
    (e : CacheEntry V) : List (String × CacheEntry V) :=
  match c with
  | [] => [(k, e)]
  | p :: t => if p.1 = k then (k, e) :: t else p :: dictSet t k e

/-- `del d[key]`. -/
def dictDel {V : Type} (c : List (String × CacheEntry V)) (k : String) :
    List (String × CacheEntry V) :=
  match c with
  | [] => []
  | p :: t => if p.1 = k then t else p :: dictDel t k

/-- `MemoryCache.is_valid`. -/
def MemoryCache.is_valid {V : Type} (mc : MemoryCache V) (now : ℤ) (k : String) : Bool :=
  match cacheFind mc.cache k with
  | none => false
  | some e => now < e.expires

/-- `MemoryCache.get`: returns the (possibly purged) cache and the value. -/
def MemoryCache.get {V : Type} (mc : MemoryCache V) (now : ℤ) (k : String) :
    MemoryCache V × Option V :=
  match cacheFind mc.cache k with
  | none => (mc, none)
  | some e =>
    if now < e.expires then (mc, some e.value)
    else ({ mc with cache := dictDel mc.cache k }, none)

/-- `MemoryCache.set`; `none` is the `StopIteration` of evicting from an
empty dict (reachable only with `max_size = 0`). -/
def MemoryCache.set {V : Type} (mc : MemoryCache V) (now : ℤ) (k : String) (v : V)
    (ttl_seconds : ℤ) : Option (MemoryCache V) :=
  let e : CacheEntry V := { value := v, expires := now + ttl_seconds }
  if mc.max_size ≤ mc.cache.length then
    match mc.cache with
    | [] => none
    | _ :: rest => some { mc with cache := dictSet rest k e }
  else some { mc with cache := dictSet mc.cache k e }

/-! ### Retry and circuit breaker — `main.py`

`retry_async` and `CircuitBreaker` wrap an async operation; the operation
is modelled as an oracle `Nat → Except E A` giving the outcome of its n-th
invocation, and the decorators as functions of that oracle.  `asyncio.sleep`
has no observable effect on the modelled state. -/

/-- Attempts `k, k+1, …` with `fuel` retries left after the current one;
the final attempt's error is re-raised (`raise last_exception`). -/
def retryGo {E A : Type} (oracle : Nat → Except E A) : Nat → Nat → Except E A
  | k, 0 => oracle k
  | k, fuel + 1 =>
    match oracle k with
    | .ok a => .ok a
    | .error _ => retryGo oracle (k + 1) fuel

/-- `retry_async(max_attempts)` applied to the operation, for
`max_attempts ≥ 1` (`main.py:192-218`); every attempt's failure is assumed
to be in the decorator's `exceptions` tuple, as in both call sites (which
pass `(…, Exception)` or the only exception types the wrapped body raises). -/
def retry_async {E A : Type} (max_attempts : Nat) (oracle : Nat → Except E A) :
    Except E A :=
  retryGo oracle 0 (max_attempts - 1)

inductive CBState where
  | CLOSED
  | OPEN
  | HALF_OPEN
  deriving DecidableEq, Repr

/-- `CircuitBreaker.__init__` state (`main.py:221-228`). -/
structure CircuitBreaker where
  failure_threshold : Nat
  timeout : ℤ
  failure_count : Nat
  last_failure_time : Option ℤ
  state : CBState
  deriving DecidableEq, Repr

def cbInit (failure_threshold : Nat) (timeout : ℤ) : CircuitBreaker :=
  { failure_threshold := failure_threshold
    timeout := timeout
    failure_count := 0
    last_failure_time := none
    state := .CLOSED }

/-- `CircuitBreaker._on_success`. -/
def cbOnSuccess (cb : CircuitBreaker) : CircuitBreaker :=
  { cb with failure_count := 0, state := .CLOSED }

/-- `CircuitBreaker._on_failure`. -/
def cbOnFailure (cb : CircuitBreaker) (now : ℤ) : CircuitBreaker :=
  let fc := cb.failure_count + 1
  { cb with
    failure_count := fc
    last_failure_time := some now
    state := if cb.failure_threshold ≤ fc then .OPEN else cb.state }

/-- Outcome of one guarded call: the wrapped result, or the fail-fast
`HTTPException(503)` raised while the breaker is open. -/
inductive CBOutcome (E A : Type) where
  | ok (a : A)
  | err (e : E)
  | circuitOpen
  deriving DecidableEq, Repr

/-- Run the underlying operation (already allowed through the guard) and do
the success/failure bookkeeping.  The `Bool` records that the operation was
invoked. -/
def cbRunInner {E A : Type} (cb : CircuitBreaker) (now : ℤ) :
    Except E A → CircuitBreaker × CBOutcome E A × Bool
  | .ok a => (cbOnSuccess cb, .ok a, true)
  | .error e => (cbOnFailure cb now, .err e, true)

/-- One call through the `CircuitBreaker.__call__` wrapper (`main.py:230-250`),
given the current clock and the outcome the underlying operation would
produce if invoked.  The `OPEN`-with-no-recorded-failure case cannot be
reached from `cbInit` (see `cbReachableInv`); in the source it would raise a
`TypeError` comparing against `None`, and is mapped to the guard letting the
call through, which no theorem below relies on. -/
def cbCall {E A : Type} (cb : CircuitBreaker) (now : ℤ) (res : Except E A) :
    CircuitBreaker × CBOutcome E A × Bool :=
  match cb.state with
  | .OPEN =>
    match cb.last_failure_time with
    | some t =>
      if now - t < cb.timeout then (cb, .circuitOpen, false)
      else cbRunInner { cb with state := .HALF_OPEN } now res
    | none => cbRunInner { cb with state := .HALF_OPEN } now res
  | .CLOSED => cbRunInner cb now res
  | .HALF_OPEN => cbRunInner cb now res

/-- Feed a sequence of timed underlying-operation outcomes through the breaker,
returning the final breaker state. -/
def cbRun {E A : Type} (cb : CircuitBreaker) :
    List (ℤ × Except E A) → CircuitBreaker
  | [] => cb
  | (now, res) :: rest => cbRun (cbCall cb now res).1 rest

/-- The invariant connecting `OPEN` to its bookkeeping: an open breaker has
accumulated at least `failure_threshold` failures and recorded the last one. -/
def cbInv (cb : CircuitBreaker) : Prop :=
  cb.state = .OPEN →
    cb.failure_threshold ≤ cb.failure_count ∧ ∃ t, cb.last_failure_time = some t

/-! ### Fact store text lookups

Two variants exist in the repository.  The Spanner table is modelled as the
list of its `(subject, predicate, object)` rows, and `execute_sql` of the
generated `SELECT … WHERE … LIMIT n` as filtering that list (row order of
an unordered SQL result is fixed as table order; no claim depends on it). -/

structure TripleRow where
  s : String
  p : String
  o : String
  deriving DecidableEq, Repr

/-- `f"{row[0]} {row[1]} {row[2]}"`. -/
def rowToStr (r : TripleRow) : String :=
  r.s ++ " " ++ r.p ++ " " ++ r.o

/-- `field LIKE '%term%'` (case-sensitive variant used by `main.py`). -/
def rowMatches (term : String) (r : TripleRow) : Bool :=
  strContains term r.s || strContains term r.p || strContains term r.o

/-- `LOWER(field) LIKE '%term.lower()%'` on any of the three fields
(variant used by `src/database.py`). -/
def rowMatchesLower (term : String) (r : TripleRow) : Bool :=
  strContains (pyLower term) (pyLower r.s) || strContains (pyLower term) (pyLower r.p) ||
    strContains (pyLower term) (pyLower r.o)

/-- `extract_keywords_from_prompt` (`main.py:309-321`): strip non-word
characters, split, drop stopwords and 1-char tokens, keep at most 5.
`\w` is modelled for the scripts occurring in this repository (ASCII
alphanumerics, underscore, Hangul). -/
def main_stop_words : List String :=
  ["은", "는", "이", "가", "을", "를", "의", "에", "에서", "로", "으로", "와", "과",
   "하다", "되다", "있다", "없다", "이다", "아니다",
   "무엇", "어떤", "어디", "언제", "왜", "어떻게", "누구", "몇", "얼마",
   "인가요", "입니까", "습니까", "나요", "까요", "는지", "인지"]

def pyWordChar (c : Char) : Bool :=
  c.isAlphanum || c == '_' || (0x3131 ≤ c.toNat && c.toNat ≤ 0xD7A3)

def extract_keywords_from_prompt (user_prompt : String) : List String :=
  let cleaned : String :=
    ⟨user_prompt.data.map (fun c => if pyWordChar c || pyIsSpace c then c else ' ')⟩
  let words := pySplitWs cleaned
  (words.filter (fun w => 2 ≤ w.length && !main_stop_words.contains w)).take 5

/-- The strings collected by `main.py:348-372` before the final `[:15]`:
one pass with the full prompt appended verbatim, then one pass per keyword
whose stringified rows are appended only when not already present. -/
def mainAllTriples (table : List TripleRow) (user_prompt : String) : List String :=
  let original := ((table.filter (rowMatches user_prompt)).take 10).map rowToStr
  (extract_keywords_from_prompt user_prompt).foldl
    (fun acc kw =>
      (((table.filter (rowMatches kw)).take 10).map rowToStr).foldl
        (fun a t => if a.contains t then a else a ++ [t]) acc)
    original

/-- `query_spanner_triples` (`main.py:323-400`), success path: the
decorators and the exception wrapping do not change the returned list. -/
def query_spanner_triples_main (table : List TripleRow) (user_prompt : String) :
    List String :=
  (mainAllTriples table user_prompt).take 15

/-- `query_spanner_triples` (`src/database.py:24-87`).  `storeFails = true`
means `execute_sql` (or anything else inside the `try`) raised; the
`except Exception` there logs and returns `[]`.  `cached` is the
`memory_cache.get(cache_key)` outcome; the cache write-back on success does
not affect the returned value. -/
def query_spanner_triples_db (table : List TripleRow) (cached : Option (List String))
    (storeFails : Bool) (user_prompt : String) : List String :=
  match cached with
  | some r => r
  | none =>
    if storeFails then []
    else
      let keywords := pySplitWs user_prompt
      let rows :=
        if keywords.isEmpty then table.take 50  -- WHERE 1=1
        else (table.filter (fun r => keywords.any (fun kw => rowMatchesLower kw r))).take 50
      rows.map rowToStr

/-! ### Discovery Engine outbound calls — `modules/services/discovery_engine_api.py`

`search_documents` / `generate_answer` each perform exactly one
`session.post` to their endpoint and raise `DiscoveryEngineAPIError` on a
non-ok status; there is no retry decorator and no circuit breaker on either.
The HTTP layer is an oracle from attempt number to response; the body is
opaque (the parsed JSON the caller receives). -/

structure HttpResp where
  ok : Bool
  status : Nat
  body : String
  deriving DecidableEq, Repr

/-- `DiscoveryEngineAPIError(message, status_code, error_body)`, keyed here
by status and body. -/
abbrev DiscoveryApiError := Nat × String

def httpOutcome (r : HttpResp) : Except DiscoveryApiError String :=
  if r.ok then .ok r.body else .error (r.status, r.body)

/-- `search_documents` (`discovery_engine_api.py:72-107`): one POST, result
or raised error, plus the number of POSTs performed on this endpoint. -/
def search_documents (post : Nat → HttpResp) : Except DiscoveryApiError String × Nat :=
  (httpOutcome (post 0), 1)

/-- `generate_answer` (`discovery_engine_api.py:109-148`): same call shape. -/
def generate_answer (post : Nat → HttpResp) : Except DiscoveryApiError String × Nat :=
  (httpOutcome (post 0), 1)

/-- `_call_vertex_api` (`main.py:474-517`): decorator order is
`@vertex_circuit_breaker` outside `@retry_async(max_attempts=3, …)`, so one
guarded call runs the whole retry loop as its underlying operation. -/
def call_vertex_api {E A : Type} (cb : CircuitBreaker) (now : ℤ)
    (oracle : Nat → Except E A) : CircuitBreaker × CBOutcome E A × Bool :=
  cbCall cb now (retry_async 3 oracle)

/-! ## Theorems for the claims -/

/-- C7: the claim states `classify("프리미엄 플랜이 정확히 얼마예요?")` yields
`is_sensitive=true`, `query_type="specific_price"` and confidence ≥ 0.9.
The first two conjuncts hold, but no specific-price regex pattern matches
this query (it contains none of "가격", "비용", "받", "원"), so the
confidence is `min(0.4·1 + 0.15·2, 1.0) = 0.7` and never reaches the
0.9 floor that only a pattern match grants: the claim, as stated, is false. -/
theorem c7_counterexample :
    ¬ ((is_sensitive_query "프리미엄 플랜이 정확히 얼마예요?").is_sensitive = true
        ∧ (is_sensitive_query "프리미엄 플랜이 정확히 얼마예요?").query_type = "specific_price"
        ∧ (9 : ℚ)/10 ≤ (is_sensitive_query "프리미엄 플랜이 정확히 얼마예요?").confidence) := by
  intro h
  have h70 : (is_sensitive_query "프리미엄 플랜이 정확히 얼마예요?").confidence100 = 70 := by
    decide
  have := h.2.2
  rw [ClassificationResult.confidence, h70] at this
  norm_num at this

/-- C7 (amended): the classifier applied to "프리미엄 플랜이 정확히 얼마예요?"
returns `is_sensitive=true`, `query_type="specific_price"` and confidence
exactly 0.7 (≥ 0.7, below the claimed 0.9). -/
theorem c7_amended_classifier_example :
    (is_sensitive_query "프리미엄 플랜이 정확히 얼마예요?").is_sensitive = true
    ∧ (is_sensitive_query "프리미엄 플랜이 정확히 얼마예요?").query_type = "specific_price"
    ∧ (is_sensitive_query "프리미엄 플랜이 정확히 얼마예요?").confidence = 7/10 := by
  refine ⟨by decide, by decide, ?_⟩
  have h70 : (is_sensitive_query "프리미엄 플랜이 정확히 얼마예요?").confidence100 = 70 := by
    decide
  rw [ClassificationResult.confidence, h70]
  norm_num

/-- C1: in `src/database.py`, `query_spanner_triples` converts any
unexpected store failure into a plain `[]` (`except Exception: … return []`),
which is byte-for-byte the value a successful query over an empty store
returns — the exceptional outcome and the normal empty result are NOT
distinguishable in the returned value, for every store and every prompt.
(The `main.py` twin of this function does re-raise distinct error kinds;
this path is the one §9 of the spec flags as the latent bug.) -/
theorem c1_silent_exception_to_empty :
    ∀ (table : List TripleRow) (prompt : String),
      query_spanner_triples_db table none true prompt = []
      ∧ query_spanner_triples_db table none true prompt =
          query_spanner_triples_db [] none false prompt := by
  intro table prompt
  have hfail : query_spanner_triples_db table none true prompt = [] := rfl
  have hempty : query_spanner_triples_db [] none false prompt = [] := by
    unfold query_spanner_triples_db
    simp
  exact ⟨hfail, hfail.trans hempty.symm⟩

/-- C9: concrete store on which `queryByText` returns the same rendered
triple twice.  The two distinct rows ("a b", "c", "d") and ("a", "b c", "d")
both match the full-prompt pass for prompt "d" and both render to the
string "a b c d"; that first pass appends its results without any
duplicate check (`main.py:361-362`), so the claim is false as stated. -/
def c9store : List TripleRow :=
  [{ s := "a b", p := "c", o := "d" }, { s := "a", p := "b c", o := "d" }]

/-- C9: counterexample — `queryByText` CAN return two structurally identical
(subject, predicate, object) strings. -/
theorem c9_counterexample :
    query_spanner_triples_main c9store "d" = ["a b c d", "a b c d"]
    ∧ ¬ (query_spanner_triples_main c9store "d").Nodup := by
  exact ⟨by decide, by decide⟩

/-- C6: the claim says the handler never propagates an unhandled exception
and converts any uncaught failure into the fixed generic-error 200
response.  But when `conversationHistory` is not valid JSON, the
`json.loads` at api.py:108 raises, the outer handler catches it, and then
the handler's own `json.loads(conversationHistory)` at api.py:345 raises
again — the second exception escapes uncaught, for every prompt and engine
behaviour. -/
theorem c6_unhandled_on_bad_history :
    ∀ (userPrompt e : String) (engine : Nat → Except String DiscoveryResult),
      generate_content true userPrompt (.error e) engine = (.unhandled e, 0) := by
  intro p e engine
  rfl

/-- C4: for every query classified `is_sensitive = true` and
`should_try_rag_first = false`, the handler returns HTTP 200 with
`consultant_needed = true` and the fixed escalation template for the
query's categories as the answer text, and the retrieval engine is invoked
zero times. -/
theorem c4_sensitive_path_no_provider_call :
    ∀ (userPrompt : String) (hist : List (String × String))
      (engine : Nat → Except String DiscoveryResult),
      (is_sensitive_query userPrompt).is_sensitive = true →
      (is_sensitive_query userPrompt).should_try_rag_first = false →
      generate_content true userPrompt (.ok hist) engine =
        (.json (sensitive_response_json hist userPrompt (is_sensitive_query userPrompt)) 200, 0)
      ∧ (sensitive_response_json hist userPrompt (is_sensitive_query userPrompt)).answer =
          get_sensitive_response (is_sensitive_query userPrompt).categories
      ∧ (sensitive_response_json hist userPrompt
          (is_sensitive_query userPrompt)).consultant_needed = some true := by
  intro p hist engine hs hr
  refine ⟨?_, rfl, rfl⟩
  unfold generate_content
  simp [hs, hr]

/-- C4 witness: the query "얼마" is classified sensitive without a RAG-first
attempt, and handling it with an engine that would fail never reaches the
engine: the handler returns the fixed template with zero engine calls. -/
theorem c4_witness :
    generate_content true "얼마" (.ok []) (fun _ => .error "down") =
      (.json (sensitive_response_json [] "얼마" (is_sensitive_query "얼마")) 200, 0) :=
  (c4_sensitive_path_no_provider_call "얼마" [] (fun _ => .error "down")
    (by decide) (by decide)).1

/-- C10: for every query classified `should_try_rag_first = true` whose
first engine call succeeds with answer text longer than 50 characters after
stripping, the handler makes a second engine call with the same query and
builds the HTTP response from that second call's outcome (`handle_main` of
`engine 1`) — two engine invocations in total, the first result discarded. -/
theorem c10_rag_first_double_call :
    ∀ (userPrompt : String) (hist : List (String × String))
      (engine : Nat → Except String DiscoveryResult) (r0 : DiscoveryResult),
      (is_sensitive_query userPrompt).should_try_rag_first = true →
      engine 0 = .ok r0 →
      r0.answer_text ≠ "" →
      50 < (pyStrip r0.answer_text).length →
      generate_content true userPrompt (.ok hist) engine =
        (handle_main hist userPrompt (engine 1), 2) := by
  intro p hist engine r0 hr h0 hne hlen
  unfold generate_content
  simp [hr, h0, hne, hlen]

/-- C10 witness: the query "플랜" is RAG-first; with an engine constantly
returning a 60-character answer, the handler calls it twice and answers
from the second result. -/
theorem c10_witness :
    generate_content true "플랜" (.ok [])
        (fun _ => .ok { answer_text := "aaaaaaaaaaaaaaaaaaaaaaaaaaaaaaaaaaaaaaaaaaaaaaaaaaaaaaaaaaaa",
                        citations := [], search_results := [], related_questions := [],
                        query_id := "", session_id := "" }) =
      (handle_main [] "플랜"
        (.ok { answer_text := "aaaaaaaaaaaaaaaaaaaaaaaaaaaaaaaaaaaaaaaaaaaaaaaaaaaaaaaaaaaa",
               citations := [], search_results := [], related_questions := [],
               query_id := "", session_id := "" }), 2) :=
  c10_rag_first_double_call "플랜" [] _ _ (by decide) rfl (by decide) (by decide)

/-- C5: whenever the handler returns a JSON response with
`consultant_needed = true`, its answer text is one of the fixed escalation
templates of `get_sensitive_response` — never engine-produced content.
This covers the sensitive, rag_insufficient and rag_error paths (the main
and generic-error responses carry no `consultant_needed` key). -/
theorem c5_consultant_answer_is_template :
    ∀ (authOk : Bool) (userPrompt : String)
      (histParse : Except String (List (String × String)))
      (engine : Nat → Except String DiscoveryResult)
      (r : ApiResponse) (s n : Nat),
      generate_content authOk userPrompt histParse engine = (.json r s, n) →
      r.consultant_needed = some true →
      r.answer = get_sensitive_response ["general_plan_info"]
      ∨ r.answer = get_sensitive_response (is_sensitive_query userPrompt).categories := by
  intro a p hp engine r s n heq hcn
  cases a with
  | false => simp [generate_content] at heq
  | true =>
    cases hp with
    | error e => simp [generate_content, outer_error_handler] at heq
    | ok hist =>
      cases hr : (is_sensitive_query p).should_try_rag_first with
      | true =>
        cases h0 : engine 0 with
        | error e =>
          simp [generate_content, hr, h0] at heq
          exact Or.inl (by rw [← heq.1.1]; rfl)
        | ok r0 =>
          cases hc : (!(r0.answer_text == "") && decide (50 < (pyStrip r0.answer_text).length)) with
          | true =>
            cases h1 : engine 1 with
            | error e1 =>
              simp [generate_content, handle_main, hr, h0, h1, hc] at heq
              rw [← heq.1.1] at hcn
              exact absurd hcn (by simp [generic_error_response])
            | ok r1 =>
              simp [generate_content, handle_main, hr, h0, h1, hc] at heq
              rw [← heq.1.1] at hcn
              exact absurd hcn (by simp [main_response])
          | false =>
            simp [generate_content, hr, h0, hc] at heq
            exact Or.inl (by rw [← heq.1.1]; rfl)
      | false =>
        cases hs : (is_sensitive_query p).is_sensitive with
        | true =>
          simp [generate_content, hr, hs] at heq
          exact Or.inr (by rw [← heq.1.1]; rfl)
        | false =>
          cases h0 : engine 0 with
          | error e =>
            simp [generate_content, handle_main, hr, hs, h0] at heq
            rw [← heq.1.1] at hcn
            exact absurd hcn (by simp [generic_error_response])
          | ok r0 =>
            simp [generate_content, handle_main, hr, hs, h0] at heq
            rw [← heq.1.1] at hcn
            exact absurd hcn (by simp [main_response])

/-- C5 witness: the consultant response produced for "얼마" (a sensitive
query) satisfies the invariant — its answer is an escalation template. -/
theorem c5_witness :
    (sensitive_response_json [] "얼마" (is_sensitive_query "얼마")).answer =
      get_sensitive_response ["general_plan_info"]
    ∨ (sensitive_response_json [] "얼마" (is_sensitive_query "얼마")).answer =
        get_sensitive_response (is_sensitive_query "얼마").categories :=
  c5_consultant_answer_is_template true "얼마" (.ok []) (fun _ => .error "down")
    (sensitive_response_json [] "얼마" (is_sensitive_query "얼마")) 200 0
    (by decide) (by decide)

/-- C2 counterexample oracle: the first POST fails with a transient 503;
the next attempt would succeed. -/
def c2post : Nat → HttpResp := fun n =>
  if n = 0 then { ok := false, status := 503, body := "unavailable" }
  else { ok := true, status := 200, body := "result-found" }

/-- C2: counterexample — the Discovery Engine search call used by the main
request path is not retry-wrapped (and consults no breaker state): a single
transient 503 makes `search_documents` fail after exactly one underlying
POST, although the claimed retry policy (3 attempts with backoff) over the
very same attempt outcomes succeeds. -/
theorem c2_counterexample :
    search_documents c2post = (.error (503, "unavailable"), 1)
    ∧ retry_async 3 (fun n => httpOutcome (c2post n)) = .ok "result-found" := by
  exact ⟨rfl, rfl⟩

/-- C2 (amended): only the legacy Vertex AI path (`_call_vertex_api` in
`main.py`) carries the retry policy and circuit breaker; the Discovery
Engine search and answer-generation calls used by the main request path
each perform exactly one POST, propagate its outcome directly, and have no
retry and no breaker.  Conjuncts: (1)/(2) `search_documents` and
`generate_answer` are a single attempt; (3) the Vertex path retries a
transient first failure; (4) the Vertex path fails fast while its breaker
is open, without invoking the operation. -/
theorem c2_amended_call_wrapping :
    (∀ post : Nat → HttpResp, search_documents post = (httpOutcome (post 0), 1))
    ∧ (∀ post : Nat → HttpResp, generate_answer post = (httpOutcome (post 0), 1))
    ∧ (∀ (E A : Type) (cb : CircuitBreaker) (now : ℤ) (oracle : Nat → Except E A)
        (e : E) (a : A),
        cb.state = .CLOSED → oracle 0 = .error e → oracle 1 = .ok a →
        (call_vertex_api cb now oracle).2 = (.ok a, true))
    ∧ (∀ (E A : Type) (cb : CircuitBreaker) (now t : ℤ) (oracle : Nat → Except E A),
        cb.state = .OPEN → cb.last_failure_time = some t → now - t < cb.timeout →
        call_vertex_api (E := E) (A := A) cb now oracle = (cb, .circuitOpen, false)) := by
  refine ⟨fun post => rfl, fun post => rfl, ?_, ?_⟩
  · intro E A cb now oracle e a hst h0 h1
    have hretry : retry_async 3 oracle = .ok a := by
      have hshape : retry_async 3 oracle =
          (match oracle 0 with
            | .ok x => (.ok x : Except E A)
            | .error _ =>
              match oracle 1 with
              | .ok x => .ok x
              | .error _ => oracle 2) := rfl
      rw [hshape, h0, h1]
    have hcallq : call_vertex_api cb now oracle = cbCall cb now (retry_async 3 oracle) := rfl
    rw [hcallq, hretry]
    simp [cbCall, cbRunInner, hst]
  · intro E A cb now t oracle hst hlast hlt
    have hcallq : call_vertex_api (E := E) (A := A) cb now oracle =
        cbCall cb now (retry_async 3 oracle) := rfl
    rw [hcallq]
    simp [cbCall, hst, hlast, hlt]

/-- An open breaker (threshold 3, timeout 30) whose last failure was at
time 0, still inside its cooldown at time 10. -/
def cbOpenC2 : CircuitBreaker :=
  { failure_threshold := 3, timeout := 30, failure_count := 3,
    last_failure_time := some 0, state := .OPEN }

/-- C2 witness: a fresh closed breaker around the retried Vertex call
recovers from the transient first failure of `c2post`, and an open breaker
within its cooldown fails fast without invoking the call. -/
theorem c2_witness :
    (call_vertex_api (cbInit 3 30) 0 (fun n => httpOutcome (c2post n))).2 =
      (.ok "result-found", true)
    ∧ call_vertex_api cbOpenC2 10 (fun n => httpOutcome (c2post n)) =
        (cbOpenC2, .circuitOpen, false) := by
  constructor
  · exact c2_amended_call_wrapping.2.2.1 DiscoveryApiError String (cbInit 3 30) 0
      (fun n => httpOutcome (c2post n)) (503, "unavailable") "result-found" rfl rfl rfl
  · exact c2_amended_call_wrapping.2.2.2 DiscoveryApiError String cbOpenC2
      10 0 (fun n => httpOutcome (c2post n)) rfl rfl (by decide)

/-- Helper for C3: a run of consecutive failing calls through a CLOSED
breaker whose pending failure count completes the threshold ends OPEN. -/
theorem cbRun_failures_open {E : Type} (err : E) :
    ∀ (times : List ℤ) (cb : CircuitBreaker),
      cb.state = .CLOSED →
      1 ≤ times.length →
      cb.failure_count + times.length = cb.failure_threshold →
      (cbRun cb (times.map (fun t => (t, (Except.error err : Except E Unit))))).state =
        .OPEN := by
  intro times
  induction times with
  | nil => intro cb _ hlen _; exact absurd hlen (by simp)
  | cons t ts ih =>
    intro cb hst hlen hcount
    have hstep : cbRun cb (((t :: ts)).map (fun u => (u, (Except.error err : Except E Unit)))) =
        cbRun (cbOnFailure cb t) (ts.map (fun u => (u, (Except.error err : Except E Unit)))) := by
      simp only [List.map_cons, cbRun, cbCall, hst, cbRunInner]
    rw [hstep]
    cases ts with
    | nil =>
      have hthr : cb.failure_threshold ≤ cb.failure_count + 1 := by
        simp at hcount
        omega
      simp [cbRun, cbOnFailure, hthr]
    | cons t2 ts2 =>
      have hlt : ¬ cb.failure_threshold ≤ cb.failure_count + 1 := by
        simp at hcount
        omega
      refine ih (cbOnFailure cb t) ?_ (by simp) ?_
      · simp [cbOnFailure, hlt, hst]
      · simp only [cbOnFailure]
        simp at hcount ⊢
        omega

/-- C3: the circuit breaker lifecycle.  (1) a fresh breaker starts CLOSED
with no failures; (2) `failure_threshold` consecutive failures (no
intervening success) take a fresh breaker to OPEN; (3) while OPEN and
strictly within `timeout` of the last failure, a call returns the fail-fast
503 and the underlying operation is not invoked; (4) once `timeout` has
elapsed the call runs in HALF_OPEN and success returns the breaker to
CLOSED; (5) failure of that trial call returns it to OPEN (using the
invariant that an OPEN breaker has reached its threshold); (6) that
invariant holds initially and is preserved by every call. -/
theorem c3_circuit_breaker_lifecycle :
    (∀ (ft : Nat) (tmo : ℤ),
        (cbInit ft tmo).state = .CLOSED ∧ (cbInit ft tmo).failure_count = 0)
    ∧ (∀ (E : Type) (err : E) (times : List ℤ) (ft : Nat) (tmo : ℤ),
        1 ≤ ft → times.length = ft →
        (cbRun (cbInit ft tmo)
          (times.map (fun t => (t, (Except.error err : Except E Unit))))).state = .OPEN)
    ∧ (∀ (E A : Type) (cb : CircuitBreaker) (now t : ℤ) (res : Except E A),
        cb.state = .OPEN → cb.last_failure_time = some t → now - t < cb.timeout →
        cbCall cb now res = (cb, .circuitOpen, false))
    ∧ (∀ (E A : Type) (cb : CircuitBreaker) (now t : ℤ) (a : A),
        cb.state = .OPEN → cb.last_failure_time = some t → cb.timeout ≤ now - t →
        cbCall (E := E) cb now (Except.ok a) =
          (cbOnSuccess { cb with state := .HALF_OPEN }, .ok a, true)
        ∧ (cbCall (E := E) cb now (Except.ok a)).1.state = .CLOSED)
    ∧ (∀ (E A : Type) (cb : CircuitBreaker) (now t : ℤ) (err : E),
        cb.state = .OPEN → cb.last_failure_time = some t → cb.timeout ≤ now - t →
        cb.failure_threshold ≤ cb.failure_count →
        (cbCall (E := E) (A := A) cb now (Except.error err)).1.state = .OPEN
        ∧ (cbCall (E := E) (A := A) cb now (Except.error err)).2.2 = true)
    ∧ ((∀ (ft : Nat) (tmo : ℤ), cbInv (cbInit ft tmo))
        ∧ ∀ (E A : Type) (cb : CircuitBreaker) (now : ℤ) (res : Except E A),
            cbInv cb → cbInv (cbCall cb now res).1) := by
  refine ⟨fun ft tmo => ⟨rfl, rfl⟩, ?_, ?_, ?_, ?_, ?_, ?_⟩
  · intro E err times ft tmo hft hlen
    exact cbRun_failures_open err times (cbInit ft tmo) rfl (by omega) (by simpa [cbInit] using hlen)
  · intro E A cb now t res hst hlast hlt
    simp [cbCall, hst, hlast, hlt]
  · intro E A cb now t a hst hlast hle
    have hnlt : ¬ (now - t < cb.timeout) := by omega
    constructor
    · simp [cbCall, hst, hlast, hnlt, cbRunInner]
    · simp [cbCall, hst, hlast, hnlt, cbRunInner, cbOnSuccess]
  · intro E A cb now t err hst hlast hle hthr
    have hnlt : ¬ (now - t < cb.timeout) := by omega
    have hthr1 : cb.failure_threshold ≤ cb.failure_count + 1 := by omega
    constructor
    · simp [cbCall, hst, hlast, hnlt, cbRunInner, cbOnFailure, hthr1]
    · simp [cbCall, hst, hlast, hnlt, cbRunInner]
  · intro ft tmo
    intro hopen
    exact absurd hopen (by simp [cbInit])
  · intro E A cb now res hinv
    have hrun : ∀ (cb2 : CircuitBreaker), cbInv cb2 →
        cbInv (cbRunInner (E := E) (A := A) cb2 now res).1 := by
      intro cb2 hinv2
      cases res with
      | ok a =>
        intro hopen
        exact absurd hopen (by simp [cbRunInner, cbOnSuccess])
      | error e =>
        intro hopen
        by_cases hthr : cb2.failure_threshold ≤ cb2.failure_count + 1
        · refine ⟨?_, now, ?_⟩
          · simpa [cbRunInner, cbOnFailure] using hthr
          · simp [cbRunInner, cbOnFailure]
        · exfalso
          have : (cbRunInner (E := E) (A := A) cb2 now (Except.error e)).1.state = cb2.state := by
            simp [cbRunInner, cbOnFailure, hthr]
          rw [this] at hopen
          have h2 := hinv2 hopen
          omega
    cases hst : cb.state with
    | CLOSED =>
      have : (cbCall (E := E) (A := A) cb now res) = cbRunInner cb now res := by
        simp [cbCall, hst]
      rw [this]
      exact hrun cb hinv
    | HALF_OPEN =>
      have : (cbCall (E := E) (A := A) cb now res) = cbRunInner cb now res := by
        simp [cbCall, hst]
      rw [this]
      exact hrun cb hinv
    | OPEN =>
      obtain ⟨hthr, t, hlast⟩ := hinv hst
      by_cases hlt : now - t < cb.timeout
      · have : (cbCall (E := E) (A := A) cb now res) = (cb, .circuitOpen, false) := by
          simp [cbCall, hst, hlast, hlt]
        rw [this]
        exact hinv
      · have : (cbCall (E := E) (A := A) cb now res) =
            cbRunInner { cb with state := .HALF_OPEN } now res := by
          simp [cbCall, hst, hlast, hlt]
        rw [this]
        refine hrun _ ?_
        intro hopen
        exact absurd hopen (by simp)

/-- The open breaker reached by three failures (at times 0, 1, 2) of a
fresh breaker with threshold 3 and timeout 30. -/
def cbOpenW : CircuitBreaker :=
  { failure_threshold := 3, timeout := 30, failure_count := 3,
    last_failure_time := some 2, state := .OPEN }

/-- C3 witness: the Vertex breaker configuration (threshold 3, timeout 30):
three failures at times 0,1,2 open it; a call at time 10 fails fast without
invoking the operation; a successful trial at time 40 closes it again; a
failing trial at time 40 re-opens it. -/
theorem c3_witness :
    (cbInit 3 30).state = .CLOSED
    ∧ (cbRun (cbInit 3 30)
        ([(0:ℤ), 1, 2].map (fun t => (t, (Except.error "e" : Except String Unit))))).state =
        .OPEN
    ∧ cbCall cbOpenW 10 (Except.ok ()) =
        (cbOpenW, (.circuitOpen : CBOutcome String Unit), false)
    ∧ (cbCall cbOpenW 40
        (Except.ok ()) : CircuitBreaker × CBOutcome String Unit × Bool).1.state = .CLOSED
    ∧ (cbCall cbOpenW 40
        (Except.error "e") : CircuitBreaker × CBOutcome String Unit × Bool).1.state =
        .OPEN := by
  refine ⟨(c3_circuit_breaker_lifecycle.1 3 30).1, ?_, ?_, ?_, ?_⟩
  · exact c3_circuit_breaker_lifecycle.2.1 String "e" [0, 1, 2] 3 30 (by decide) (by decide)
  · exact c3_circuit_breaker_lifecycle.2.2.1 String Unit _ 10 2 (Except.ok ())
      rfl rfl (by decide)
  · exact (c3_circuit_breaker_lifecycle.2.2.2.1 String Unit _ 40 2 ()
      rfl rfl (by decide)).2
  · exact (c3_circuit_breaker_lifecycle.2.2.2.2.1 String Unit _ 40 2 "e"
      rfl rfl (by decide) (by decide)).1

/-- Helper for C8: after a dict assignment, looking the key up finds the
assigned entry. -/
theorem cacheFind_dictSet {V : Type} (c : List (String × CacheEntry V)) (k : String)
    (e : CacheEntry V) : cacheFind (dictSet c k e) k = some e := by
  induction c with
  | nil => simp [dictSet, cacheFind]
  | cons p t ih =>
    by_cases h : p.1 = k
    · simp [dictSet, cacheFind, h]
    · simp [dictSet, cacheFind, h, ih]

/-- C8: cache correctness.  (1) `set(k, v, ttl)` with positive ttl followed
immediately by `get(k)` returns `v`; (2) once `ttl` seconds have elapsed on
the simulated clock, `get(k)` returns absent; (3) `get` never returns a
value from an entry past its expiry; (4) `is_valid` never validates an
entry past its expiry. -/
theorem c8_cache_correctness :
    (∀ (V : Type) (mc mc' : MemoryCache V) (now : ℤ) (k : String) (v : V) (ttl : ℤ),
        0 < ttl → mc.set now k v ttl = some mc' →
        (mc'.get now k).2 = some v)
    ∧ (∀ (V : Type) (mc mc' : MemoryCache V) (now : ℤ) (k : String) (v : V) (ttl t : ℤ),
        mc.set now k v ttl = some mc' → now + ttl ≤ t →
        (mc'.get t k).2 = none)
    ∧ (∀ (V : Type) (mc : MemoryCache V) (now : ℤ) (k : String) (v : V),
        (mc.get now k).2 = some v →
        ∃ e, cacheFind mc.cache k = some e ∧ e.value = v ∧ now < e.expires)
    ∧ (∀ (V : Type) (mc : MemoryCache V) (now : ℤ) (k : String),
        mc.is_valid now k = true →
        ∃ e, cacheFind mc.cache k = some e ∧ now < e.expires) := by
  refine ⟨?_, ?_, ?_, ?_⟩
  · intro V mc mc' now k v ttl httl hset
    have hlt : now < now + ttl := by omega
    unfold MemoryCache.set at hset
    split at hset
    · rcases hmc : mc.cache with _ | ⟨p, rest⟩
      · rw [hmc] at hset
        simp at hset
      · rw [hmc] at hset
        obtain rfl := Option.some.inj hset
        simp [MemoryCache.get, cacheFind_dictSet, hlt]
    · obtain rfl := Option.some.inj hset
      simp [MemoryCache.get, cacheFind_dictSet, hlt]
  · intro V mc mc' now k v ttl t hset hle
    have hnlt : ¬ (t < now + ttl) := by omega
    unfold MemoryCache.set at hset
    split at hset
    · rcases hmc : mc.cache with _ | ⟨p, rest⟩
      · rw [hmc] at hset
        simp at hset
      · rw [hmc] at hset
        obtain rfl := Option.some.inj hset
        simp [MemoryCache.get, cacheFind_dictSet, hnlt]
    · obtain rfl := Option.some.inj hset
      simp [MemoryCache.get, cacheFind_dictSet, hnlt]
  · intro V mc now k v hget
    unfold MemoryCache.get at hget
    cases hf : cacheFind mc.cache k with
    | none =>
      rw [hf] at hget
      simp at hget
    | some e =>
      rw [hf] at hget
      by_cases hexp : now < e.expires
      · simp [hexp] at hget
        exact ⟨e, rfl, hget, hexp⟩
      · simp [hexp] at hget
  · intro V mc now k hvalid
    unfold MemoryCache.is_valid at hvalid
    cases hf : cacheFind mc.cache k with
    | none =>
      rw [hf] at hvalid
      simp at hvalid
    | some e =>
      rw [hf] at hvalid
      simp at hvalid
      exact ⟨e, rfl, hvalid⟩

/-- The cache state reached by `set("k", 42, ttl 3600)` at time 0 on an
empty cache of capacity 1000. -/
def c8mc1 : MemoryCache Nat :=
  { cache := [("k", { value := 42, expires := 3600 })], max_size := 1000 }

/-- C8 witness: on an empty cache of capacity 1000, `set` at time 0 with
ttl 3600 makes `get` at time 0 return the value and `get` at time 3600
(ttl elapsed) return absent. -/
theorem c8_witness :
    MemoryCache.set { cache := [], max_size := 1000 } 0 "k" 42 3600 = some c8mc1
    ∧ (c8mc1.get 0 "k").2 = some 42
    ∧ (c8mc1.get 3600 "k").2 = none := by
  have hset : MemoryCache.set { cache := [], max_size := 1000 } 0 "k" 42 3600 = some c8mc1 := by
    decide
  exact ⟨hset,
    c8_cache_correctness.1 Nat { cache := [], max_size := 1000 } c8mc1 0 "k" 42 3600
      (by decide) hset,
    c8_cache_correctness.2.1 Nat { cache := [], max_size := 1000 } c8mc1 0 "k" 42 3600 3600
      hset (by decide)⟩

/-- Helper for C9: folding new strings in with a membership guard preserves
duplicate-freedom of the accumulator. -/
theorem dedupFold_nodup (l : List String) :
    ∀ acc : List String, acc.Nodup →
      (l.foldl (fun a t => if a.contains t then a else a ++ [t]) acc).Nodup := by
  induction l with
  | nil => intro acc h; exact h
  | cons t l ih =>
    intro acc h
    rw [List.foldl_cons]
    by_cases hc : acc.contains t = true
    · rw [if_pos hc]
      exact ih acc h
    · rw [if_neg hc]
      refine ih _ ?_
      have ht : t ∉ acc := by simpa using hc
      simp [List.nodup_append, h, ht]

/-- Helper for C9: the keyword-pass loop of `query_spanner_triples`
(`main.py:365-372`) preserves duplicate-freedom of the collected list. -/
theorem keywordPasses_nodup (g : String → List String) :
    ∀ (kws : List String) (acc : List String), acc.Nodup →
      (kws.foldl
        (fun acc kw =>
          (g kw).foldl (fun a t => if a.contains t then a else a ++ [t]) acc)
        acc).Nodup := by
  intro kws
  induction kws with
  | nil => intro acc h; exact h
  | cons kw rest ih =>
    intro acc h
    rw [List.foldl_cons]
    exact ih _ (dedupFold_nodup (g kw) acc h)

/-- C9 (amended): the keyword passes of `queryByText` are deduplicated by
exact string match against everything already collected, so whenever the
initial full-prompt pass is itself duplicate-free, the whole returned list
is duplicate-free.  (Duplicates can only come from the initial pass, which
appends without a check — see the counterexample — or, in the
`src/database.py` variant, from its single undeduplicated query.) -/
theorem c9_amended_keyword_dedup (table : List TripleRow) (prompt : String)
    (h : (((table.filter (rowMatches prompt)).take 10).map rowToStr).Nodup) :
    (query_spanner_triples_main table prompt).Nodup := by
  unfold query_spanner_triples_main
  refine List.Nodup.sublist (List.take_sublist _ _) ?_
  unfold mainAllTriples
  exact keywordPasses_nodup
    (fun kw => ((table.filter (rowMatches kw)).take 10).map rowToStr)
    (extract_keywords_from_prompt prompt) _ h

/-- C9 witness: on a one-row store whose full-prompt pass is duplicate-free,
the returned list is duplicate-free. -/
theorem c9_witness :
    (query_spanner_triples_main [{ s := "x", p := "y", o := "z" }] "x").Nodup :=
  c9_amended_keyword_dedup [{ s := "x", p := "y", o := "z" }] "x" (by decide)

end Teston
